import Mathlib

/-!
Shallow embedding of the reporting scripts (index.ts, stats-today.ts,
gameStats-today.ts, loadDbFromConfig.ts) for checking the specification's
claims.

Modelling conventions:
  * An instant is an `Int` number of milliseconds since the Unix epoch.
  * A JavaScript `Date` object is an `Option Int`: `some ms` is a Date with
    a valid time value, `none` is an Invalid Date (its time value is NaN).
    Per ECMA-262 a time value is valid iff its absolute value is at most
    8.64e15 ms; `validDate` models the clamping done by the `Date`
    constructor when given a millisecond count.
  * The heterogeneous JavaScript values fed to the timestamp helpers are
    the inductive `JSValue` below.  A string input is represented by the
    result of `new Date(string)` parsing it (`none` when unparseable or
    empty; an empty string is also falsy, and both paths yield null in the
    code, so the representation loses nothing observable).  A non-finite
    number (NaN) is `numNaN` (falsy in the code's guards).
  * Calendar arithmetic (`Date.UTC`) is exact integer arithmetic via the
    standard civil-from-days algorithm, including ECMAScript's mapping of
    years 0..99 to 1900..1999 and its month/day overflow normalization.
  * The Intl time-zone database is a parameter: a zone is a function from
    an instant to the UTC offset (in ms) that `tzOffsetMsAt` computes for
    it at that instant, and the database maps zone names to zones
    (`none` models the RangeError thrown for an unknown zone name).
  * Firestore queries are oracles (`QueryOutcome`): `err` models a thrown
    query, `ok docs` a successful snapshot.
-/

/-- Values that can reach the timestamp helpers (`MaybeTimestamp` in
index.ts plus the shapes probed by gameStats-today.ts).  `tsMethod d`
is an object with a zero-argument `toDate` method returning the Date `d`;
`pojo s n` is a plain `{seconds, nanoseconds}` object; `date d` is a
native Date; `str p` is a string whose `new Date(...)` parse result is
`p`; `num n` a finite number; `numNaN` the number NaN; `other` any other
value without a timestamp shape (e.g. an object with neither `toDate`
nor numeric `seconds`). -/
inductive JSValue where
  | jsNull
  | tsMethod (d : Option Int)
  | pojo (seconds nanoseconds : Int)
  | date (d : Option Int)
  | str (p : Option Int)
  | num (n : Int)
  | numNaN
  | other
deriving DecidableEq, Repr

/-- ECMA-262 valid time value range: `new Date(ms)` holds `ms` when
`|ms| ≤ 8.64e15`, otherwise it is an Invalid Date. -/
def validDate (ms : Int) : Option Int :=
  if ms.natAbs ≤ 8640000000000000 then some ms else none

/-- Embeds `toDateStrict` (index.ts lines 46-59).  Result `none` is the
function returning `null`; `some d` is the function returning the Date
`d` (which is the Invalid Date when `d = none`).  The initial falsiness
guard `if (!v && v !== 0) return null` rejects null/undefined and NaN;
the remaining falsy values (0, empty string) fall through to branches
that produce the same result as the guard would. -/
def toDateStrict : JSValue → Option (Option Int)
  | .jsNull => none
  | .numNaN => none
  | .tsMethod d => some d
  | .pojo s n =>
      match validDate (s * 1000 + Int.fdiv n 1000000) with
      | none => none
      | some m => some (some m)
  | .date d => some d
  | .str p =>
      match p with
      | none => none
      | some m => some (some m)
  | .num n =>
      match validDate n with
      | none => none
      | some m => some (some m)
  | .other => none

/-- Result of `toDateStrict` is `null` or a Date holding a valid
instant (the property the spec claims for every input). -/
def isValidOrNull (r : Option (Option Int)) : Prop :=
  r = none ∨ ∃ m : Int, r = some (some m)

/-- The two branches of `toDateStrict` that return a caller-supplied Date
object unchecked: a `toDate`-bearing object and a native Date. -/
def isPassthrough : JSValue → Bool
  | .tsMethod _ => true
  | .date _ => true
  | _ => false

section Calendar

/-- Days from the epoch (1970-01-01) to year `y`, month `m` (1-based,
already normalized to 1..12), day `d` (any integer; day overflow rolls
per `MakeDay`: first-of-month plus `d - 1`).  Standard civil-from-days
counting used by ECMAScript's `Date.UTC`. -/
def daysFromCivil (y m d : Int) : Int :=
  let y2 := if m ≤ 2 then y - 1 else y
  let era := Int.fdiv y2 400
  let yoe := y2 - era * 400
  let mp := Int.emod (m + 9) 12
  let doy := Int.fdiv (153 * mp + 2) 5 + d - 1
  let doe := yoe * 365 + Int.fdiv yoe 4 - Int.fdiv yoe 100 + doy
  era * 146097 + doe - 719468

/-- Embeds `Date.UTC(year, monthIndex, day, hour)` as a millisecond
count: ECMAScript maps years 0..99 to 1900..1999, folds month overflow
into the year, and lets day overflow roll into later months. -/
def dateUTCms (year monthIndex day hour : Int) : Int :=
  let yy := if 0 ≤ year ∧ year ≤ 99 then year + 1900 else year
  let ym := yy + Int.fdiv monthIndex 12
  let mn := Int.emod monthIndex 12
  daysFromCivil ym (mn + 1) day * 86400000 + hour * 3600000

/-- A half-open UTC window `[start, stop)` in ms (the `{start, end}` pair
returned by `dayRangeUTC`; `end` is a keyword-adjacent name in Lean so
the field is `stop`). -/
structure Window where
  start : Int
  stop : Int
deriving DecidableEq, Repr

/-- Embeds `dayRangeUTC` (gameStats-today.ts lines 47-58): probe at UTC
noon of the civil date, sample the zone's offset once there, and subtract
that single offset from the UTC midnights of the date and the next date.
`tzf` is the zone: the offset (ms) that `tzOffsetMsAt` reports at a given
instant. -/
def dayRangeUTC (tzf : Int → Int) (year month1Based day : Int) : Window :=
  let probe := dateUTCms year (month1Based - 1) day 12
  let offsetMs := tzf probe
  { start := dateUTCms year (month1Based - 1) day 0 - offsetMs
    stop := dateUTCms year (month1Based - 1) (day + 1) 0 - offsetMs }

/-- Embeds `dayRangeUTC` from stats-today.ts (lines 46-59): the body
ignores the `timeZone` parameter and looks up the hardcoded zone name
instead (`const tz = "America/Indiana/Indianapolis"`).  `tzdb` is the
Intl zone database; an unknown name maps to `none` (Intl throws), so the
result is `none` exactly when the *hardcoded* name is unknown. -/
def dayRangeUTCStats (tzdb : String → Option (Int → Int))
    (year month1Based day : Int) (timeZone : String) : Option Window :=
  match tzdb "America/Indiana/Indianapolis" with
  | none => none
  | some tzf => some (dayRangeUTC tzf year month1Based day)

/-- The 2025 tzdata rules for America/Indiana/Indianapolis, as Intl
reports them: UTC-5 (EST), except UTC-4 (EDT) from 2025-03-09 07:00 UTC
to 2025-11-02 06:00 UTC. -/
def indyOffset2025 (t : Int) : Int :=
  if t < 1741503600000 then -18000000
  else if t < 1762063200000 then -14400000
  else -18000000

/-- Instant `t` is the local midnight opening civil date
(year, month1Based, day) in zone `tzf`: adding the zone's offset at `t`
to `t` gives the UTC-encoded wall clock 00:00:00 of that date. -/
def isLocalMidnight (tzf : Int → Int) (year month1Based day t : Int) : Prop :=
  t + tzf t = dateUTCms year (month1Based - 1) day 0

instance (tzf : Int → Int) (y m d t : Int) :
    Decidable (isLocalMidnight tzf y m d t) := by
  unfold isLocalMidnight; infer_instance

end Calendar

section Watch

/-- A document in the `guesses` collection as seen by the watch script:
only its identifier and its `submittedAt` field matter to the freshness
logic. -/
structure WDoc where
  id : String
  submittedAt : JSValue
deriving DecidableEq, Repr

/-- The live-listener keep condition (index.ts lines 163-166):
`dt && lastSeen && dt.getTime() > lastSeen.getTime()`.  `ls` is the
current `lastSeen` Date (`none` = Invalid Date, whose NaN time value
makes every `>` comparison false). -/
def freshP (ls : Option Int) (d : WDoc) : Bool :=
  match toDateStrict d.submittedAt, ls with
  | some (some m), some t => m > t
  | _, _ => false

/-- Sort key of the ascending re-sort (index.ts lines 167-171):
`toDateStrict(x.submittedAt)?.getTime() ?? 0`.  Only documents that
passed `freshP` are ever sorted, and those all have a valid time value,
so the `0` default and the (unreachable) NaN of an Invalid Date are
collapsed to `0`. -/
def sortKey (d : WDoc) : Int :=
  match toDateStrict d.submittedAt with
  | some (some m) => m
  | _ => 0

/-- The comparator `(a, b) => keyOf(a) - keyOf(b)` sorts ascending by
key: the order it induces. -/
def keyLE (a b : WDoc) : Prop := sortKey a ≤ sortKey b

instance : DecidableRel keyLE := fun a b => Int.decLe _ _

instance : IsTotal WDoc keyLE := ⟨fun a b => Int.le_total _ _⟩

instance : IsTrans WDoc keyLE := ⟨fun _ _ _ hab hbc => le_trans hab hbc⟩

/-- One invocation of the `onSnapshot` callback (index.ts lines 152-183)
as a state transition.  State is the `lastSeen` variable:
`none` = null, `some ls` = a Date (`ls = none` being the Invalid Date).
Returns the new state and the list of documents printed, in print order.
JavaScript's `Array.prototype.sort` is stable and is modelled by the
stable `List.insertionSort` under `keyLE`. -/
def observeStep (s : Option (Option Int)) (batch : List WDoc) :
    Option (Option Int) × List WDoc :=
  match batch with
  | [] => (s, [])
  | d0 :: _ =>
    match s with
    | none => (toDateStrict d0.submittedAt, [])
    | some ls =>
      let fresh := (batch.filter (freshP ls)).insertionSort keyLE
      if fresh.isEmpty then (some ls, [])
      else
        let latest :=
          match fresh.getLast? with
          | some d => toDateStrict d.submittedAt
          | none => none
        match latest with
        | some (some t2) =>
            if (match ls with | some t => decide (t2 > t) | none => false)
            then (some (some t2), fresh) else (some ls, fresh)
        | _ => (some ls, fresh)

/-- The instant tracked by a `lastSeen` state, when it holds one
(a null or Invalid-Date state tracks no instant). -/
def trackedInstant (s : Option (Option Int)) : Option Int :=
  s.bind (fun d => d)

/-- Folding a whole sequence of snapshot batches through the listener. -/
def runBatches (s : Option (Option Int)) (batches : List (List WDoc)) :
    Option (Option Int) :=
  batches.foldl (fun st b => (observeStep st b).1) s

end Watch

section GameStats

/-- A document in the `gameStats` collection: identifier plus a finite
field map (a field absent from the list is `undefined`). -/
structure GDoc where
  id : String
  fields : List (String × JSValue)
deriving DecidableEq, Repr

/-- Field access `d[f]`: `none` is `undefined`. -/
def getField (d : GDoc) (f : String) : Option JSValue :=
  d.fields.lookup f

/-- Outcome of an awaited Firestore fetch: `err` models a thrown query,
`ok docs` a successful snapshot with its documents. -/
inductive QueryOutcome where
  | err
  | ok (docs : List GDoc)
deriving DecidableEq, Repr

/-- The candidate timestamp fields of gameStats-today.ts (line 139),
in priority order. -/
def TIME_FIELDS : List String :=
  ["submittedAt", "updatedAt", "lastUpdatedAt", "createdAt", "gameDate"]

/-- Result of the server-side candidate loop: the accepted field, the
accepted documents, and the candidates actually queried, in order. -/
structure ProbeOut where
  used : Option String
  docs : List GDoc
  attempted : List String
deriving DecidableEq, Repr

/-- Embeds the range-query loop of gameStats-today.ts (lines 142-155):
try each candidate in order; a thrown query is swallowed and the next
candidate is tried; an empty snapshot also moves on; the first non-empty
snapshot is accepted and the loop breaks. -/
def probeLoop (oracle : String → QueryOutcome) : List String → ProbeOut
  | [] => ⟨none, [], []⟩
  | f :: rest =>
    match oracle f with
    | .err =>
        let r := probeLoop oracle rest
        ⟨r.used, r.docs, f :: r.attempted⟩
    | .ok ds =>
        if ds.isEmpty then
          let r := probeLoop oracle rest
          ⟨r.used, r.docs, f :: r.attempted⟩
        else ⟨some f, ds, [f]⟩

/-- Embeds the inline normalizer of the client-side fallback filter
(gameStats-today.ts lines 163-176).  It differs from `toDateStrict`: the
falsiness guard `if (!v) continue` also skips the number 0, and the
`{seconds, nanoseconds}` branch has no Invalid-Date check (so an
out-of-range pair yields an Invalid Date, which then fails every range
comparison). -/
def inlineNorm : JSValue → Option (Option Int)
  | .jsNull => none
  | .numNaN => none
  | .tsMethod d => some d
  | .pojo s n => some (validDate (s * 1000 + Int.fdiv n 1000000))
  | .date d => some d
  | .str p =>
      match p with
      | none => none
      | some m => some (some m)
  | .num n =>
      if n = 0 then none
      else
        match validDate n with
        | none => none
        | some m => some (some m)
  | .other => none

/-- Whether `d[f]` normalizes to an instant inside the half-open window
(`dt && dt >= start && dt < end` with Date comparisons; an Invalid Date
compares false). -/
def docInRange (w : Window) (d : GDoc) (f : String) : Bool :=
  match getField d f with
  | none => false
  | some v =>
    match inlineNorm v with
    | some (some m) => w.start ≤ m && m < w.stop
    | _ => false

/-- First candidate field (in `TIME_FIELDS` order) that puts `d` in the
window — the field at which the filter predicate returns true and
records `usedField`. -/
def firstMatchingField (w : Window) (d : GDoc) : Option String :=
  TIME_FIELDS.find? (docInRange w d)

/-- Embeds the client-side fallback scan (gameStats-today.ts lines
161-181): keep the documents with some candidate field in range; if none
match, fall back to the complete set.  `usedField` is mutated inside the
filter predicate, so after the scan it holds the first matching field of
the last matching document (or stays null when nothing matched). -/
def fallbackScan (w : Window) (all : List GDoc) :
    List GDoc × Option String :=
  let inRange := all.filter (fun d => (firstMatchingField w d).isSome)
  let used := all.foldl
    (fun acc d =>
      match firstMatchingField w d with
      | some f => some f
      | none => acc) none
  (if inRange.isEmpty then all else inRange, used)

/-- Observable result of one run of the gameStats-today.ts main IIFE up
to the diagnostic line: the documents selected, the reported used field,
the server-side candidates attempted, and the process exit code
(`none` = the script continues normally). -/
structure RunResult where
  docs : List GDoc
  usedField : Option String
  attempted : List String
  exitCode : Option Nat
deriving DecidableEq, Repr

/-- Embeds the fetch phase of gameStats-today.ts (lines 136-193):
server-side candidate loop, then — only when it produced no documents —
the fallback full fetch with client-side filtering; a thrown full fetch
hits `process.exit(1)`. -/
def gameStatsRun (oracle : String → QueryOutcome)
    (fetchAll : QueryOutcome) (w : Window) : RunResult :=
  let r := probeLoop oracle TIME_FIELDS
  if r.docs.isEmpty then
    match fetchAll with
    | .err => ⟨[], r.used, r.attempted, some 1⟩
    | .ok all =>
        let s := fallbackScan w all
        ⟨s.1, s.2, r.attempted, none⟩
  else ⟨r.docs, r.used, r.attempted, none⟩

/-- Embeds the exit behaviour of the stats-today.ts `submittedAt` range
query (lines 104-113): a thrown `getDocs` logs and exits with status 1;
a successful one continues (`none`). -/
def statsTodayExitCode (q : QueryOutcome) : Option Nat :=
  match q with
  | .err => some 1
  | .ok _ => none

end GameStats

section ConcreteExamples

/-- Concrete watch documents for the spec's FreshnessTracker example:
`d1` carries timestamp 5. -/
def wd1 : WDoc := ⟨"d1", .date (some 5)⟩

/-- Concrete watch document `d2` with timestamp 3. -/
def wd2 : WDoc := ⟨"d2", .date (some 3)⟩

/-- Concrete watch document `d3` with timestamp 7. -/
def wd3 : WDoc := ⟨"d3", .date (some 7)⟩

/-- Concrete gameStats document returned by the successful candidate
query in the FieldProbe example. -/
def gdocB1 : GDoc := ⟨"gs1", [("updatedAt", .pojo 1759600000 0)]⟩

/-- Second concrete gameStats document of the FieldProbe example. -/
def gdocB2 : GDoc := ⟨"gs2", [("updatedAt", .pojo 1759600100 0)]⟩

/-- A gameStats document that would be returned by a later candidate
that must never be queried. -/
def gdocC : GDoc := ⟨"gs3", [("lastUpdatedAt", .pojo 1759600200 0)]⟩

/-- Query oracle of the FieldProbe example: the first candidate field
throws, the second succeeds with two documents, every later candidate
would succeed with a sentinel document (so the result shows they are
never consulted). -/
def probeOracleExample : String → QueryOutcome := fun f =>
  if f = "submittedAt" then .err
  else if f = "updatedAt" then .ok [gdocB1, gdocB2]
  else .ok [gdocC]

/-- Oracle on which every server-side candidate query throws. -/
def oracleErr : String → QueryOutcome := fun _ => .err

/-- A gameStats document with no candidate timestamp field at all. -/
def gdocPlain : GDoc := ⟨"p1", [("foo", .num 5)]⟩

/-- A zone database holding exactly the hardcoded Indianapolis zone. -/
def tzdbIndy : String → Option (Int → Int) := fun n =>
  if n = "America/Indiana/Indianapolis" then some indyOffset2025 else none

end ConcreteExamples

section HelperLemmas

/-- The civil day count is linear in the day argument (day overflow just
adds days). -/
theorem daysFromCivil_day_succ (y m d : Int) :
    daysFromCivil y m (d + 1) = daysFromCivil y m d + 1 := by
  simp only [daysFromCivil]
  ring

/-- Consecutive civil dates are exactly 86,400,000 ms apart in
`Date.UTC` arithmetic. -/
theorem dateUTCms_day_succ (y m d h : Int) :
    dateUTCms y m (d + 1) h = dateUTCms y m d h + 86400000 := by
  simp only [dateUTCms, daysFromCivil_day_succ]
  ring

/-- What the listener emits is a permutation of the strictly-newer
subset of the batch, and it is sorted ascending by timestamp. -/
theorem observe_emit (ls : Option Int) (batch : List WDoc) :
    List.Perm (observeStep (some ls) batch).2 (batch.filter (freshP ls)) ∧
      List.Pairwise keyLE (observeStep (some ls) batch).2 := by
  cases batch with
  | nil => exact ⟨List.Perm.refl _, List.Pairwise.nil⟩
  | cons d0 rest =>
    simp only [observeStep]
    set l := (d0 :: rest).filter (freshP ls) with hl
    have hperm : (l.insertionSort keyLE).Perm l :=
      List.perm_insertionSort keyLE l
    have hsorted : (l.insertionSort keyLE).Pairwise keyLE :=
      List.sorted_insertionSort keyLE l
    split
    · next hempty =>
        have hm : l.insertionSort keyLE = [] :=
          List.isEmpty_iff.mp hempty
        have hl0 : l = [] := by
          have h2 := hm ▸ hperm
          exact h2.symm.eq_nil
        constructor
        · rw [hl0]
        · exact List.Pairwise.nil
    · next hne =>
        split
        · split
          · exact ⟨hperm, hsorted⟩
          · exact ⟨hperm, hsorted⟩
        · exact ⟨hperm, hsorted⟩

/-- One listener invocation can only move the tracked instant forward. -/
theorem observe_mono (s : Option (Option Int)) (batch : List WDoc) (t : Int)
    (h : trackedInstant s = some t) :
    ∃ u, trackedInstant (observeStep s batch).1 = some u ∧ t ≤ u := by
  have hs : s = some (some t) := by
    cases s with
    | none => simp [trackedInstant] at h
    | some d =>
      cases d with
      | none => simp [trackedInstant] at h
      | some m => simp [trackedInstant] at h; rw [h]
  subst hs
  cases batch with
  | nil => exact ⟨t, rfl, le_refl t⟩
  | cons d0 rest =>
    simp only [observeStep]
    split
    · exact ⟨t, rfl, le_refl t⟩
    · split
      · next m heq =>
          split
          · next hgt =>
              refine ⟨m, rfl, ?_⟩
              simp only [decide_eq_true_eq] at hgt
              omega
          · exact ⟨t, rfl, le_refl t⟩
      · exact ⟨t, rfl, le_refl t⟩

/-- A whole sequence of batches can only move the tracked instant
forward. -/
theorem run_mono (batches : List (List WDoc)) (s : Option (Option Int)) (t : Int)
    (h : trackedInstant s = some t) :
    ∃ u, trackedInstant (runBatches s batches) = some u ∧ t ≤ u := by
  induction batches generalizing s t with
  | nil => exact ⟨t, h, le_refl t⟩
  | cons b bs ih =>
    obtain ⟨u, hu, htu⟩ := observe_mono s b t h
    obtain ⟨w, hw, huw⟩ := ih (observeStep s b).1 u hu
    exact ⟨w, hw, le_trans htu huw⟩

/-- A candidate loop in which every query throws or returns an empty
snapshot accepts nothing and attempts every candidate. -/
theorem probe_all_fail (oracle : String → QueryOutcome) (fs : List String)
    (h : ∀ g ∈ fs, oracle g = .err ∨ oracle g = .ok []) :
    probeLoop oracle fs = ⟨none, [], fs⟩ := by
  induction fs with
  | nil => rfl
  | cons g rest ih =>
    have hg := h g (List.mem_cons_self g rest)
    have ih2 := ih (fun x hx => h x (List.mem_cons_of_mem g hx))
    rcases hg with hg | hg
    · simp only [probeLoop, hg, ih2]
    · simp only [probeLoop, hg, List.isEmpty_nil, if_pos, ih2]

/-- The `usedField` fold of the fallback scan stays at its accumulator
when no document has a matching field. -/
theorem fold_used_none (w : Window) (l : List GDoc)
    (h : ∀ d ∈ l, firstMatchingField w d = none) :
    ∀ acc : Option String, l.foldl
      (fun acc d =>
        match firstMatchingField w d with
        | some f => some f
        | none => acc) acc = acc := by
  induction l with
  | nil => intro acc; rfl
  | cons d rest ih =>
    intro acc
    have hd := h d (List.mem_cons_self d rest)
    have h2 := ih (fun x hx => h x (List.mem_cons_of_mem d hx))
    simp only [List.foldl_cons, hd]
    exact h2 acc

/-- stats-today.ts exits non-zero exactly when its one range query
throws. -/
theorem statsToday_exit_iff (q : QueryOutcome) :
    statsTodayExitCode q = some 1 ↔ q = .err := by
  cases q with
  | err => simp [statsTodayExitCode]
  | ok ds => simp [statsTodayExitCode]

/-- gameStats-today.ts exits non-zero exactly when the candidate loop
produced no documents and the fallback full fetch throws. -/
theorem gameStats_exit_iff (oracle : String → QueryOutcome)
    (fa : QueryOutcome) (w : Window) :
    (gameStatsRun oracle fa w).exitCode = some 1 ↔
      ((probeLoop oracle TIME_FIELDS).docs = [] ∧ fa = .err) := by
  simp only [gameStatsRun]
  split
  · next hempty =>
      have hd : (probeLoop oracle TIME_FIELDS).docs = [] :=
        List.isEmpty_iff.mp hempty
      cases fa with
      | err => simp [hd]
      | ok all => simp [hd]
  · next hne =>
      have hd : ¬ (probeLoop oracle TIME_FIELDS).docs = [] := by
        intro h
        exact hne (by simp [h])
      simp [hd]

/-- The only exit statuses gameStats-today.ts can produce are normal
continuation and status 1. -/
theorem gameStats_exit_range (oracle : String → QueryOutcome)
    (fa : QueryOutcome) (w : Window) :
    (gameStatsRun oracle fa w).exitCode = none ∨
      (gameStatsRun oracle fa w).exitCode = some 1 := by
  simp only [gameStatsRun]
  split
  · cases fa with
    | err => exact Or.inr rfl
    | ok all => exact Or.inl rfl
  · exact Or.inl rfl

end HelperLemmas

/-- C1 (counterexample): on 2025-11-02 in America/Indiana/Indianapolis
(the fall-back DST day) the true local midnights bounding the calendar
day — the instants whose zone offset maps them to wall-clock 00:00 of
2025-11-02 and 2025-11-03 — are 25 hours (90,000,000 ms) apart, yet the
window computed by `dayRangeUTC` spans exactly 24 hours (86,400,000 ms).
So `end − start` is a fixed 24h constant, not the wall-clock duration
derived from offsets sampled at the two boundary instants. -/
theorem dayRangeUTC_dst_day_span_not_wall_clock :
    isLocalMidnight indyOffset2025 2025 11 2 1762056000000 ∧
      isLocalMidnight indyOffset2025 2025 11 3 1762146000000 ∧
      (1762146000000 - 1762056000000 : Int) = 90000000 ∧
      (dayRangeUTC indyOffset2025 2025 11 2).stop -
          (dayRangeUTC indyOffset2025 2025 11 2).start = 86400000 ∧
      (86400000 : Int) ≠ 90000000 := by
  refine ⟨by decide, by decide, by decide, by decide, by decide⟩

/-- C1 (amended): for every zone and every calendar date, the window
returned by `dayRangeUTC` spans exactly 86,400,000 ms, because one
offset sample (taken at local noon) is subtracted from both UTC
midnights; on a DST-transition day this is still 24h rather than the
23h/25h wall-clock duration of the local day. -/
theorem dayRangeUTC_span_always_24h (tzf : Int → Int) (y m d : Int) :
    (dayRangeUTC tzf y m d).stop - (dayRangeUTC tzf y m d).start
      = 86400000 := by
  simp only [dayRangeUTC, dateUTCms_day_succ]
  ring

/-- C9: for every (year, month, day, timezone) such that the zone's
offset does not change between the window's start and the local-noon
probe instant (no DST transition between local midnight and local
noon), the computed window spans exactly 24 hours. -/
theorem dayRangeUTC_no_dst_span_24h (tzf : Int → Int) (y m d : Int)
    (hnodst : ∀ t : Int, (dayRangeUTC tzf y m d).start ≤ t →
      t ≤ dateUTCms y (m - 1) d 12 →
      tzf t = tzf (dateUTCms y (m - 1) d 12)) :
    (dayRangeUTC tzf y m d).stop - (dayRangeUTC tzf y m d).start
      = 86400000 := by
  simp only [dayRangeUTC, dateUTCms_day_succ]
  ring

/-- C9 (witness): a constant-offset zone (no DST anywhere) on
2025-10-04 satisfies the no-transition hypothesis and gets a 24h
window. -/
theorem dayRangeUTC_no_dst_span_24h_witness :
    (∀ t : Int,
        (dayRangeUTC (fun _ => -18000000) 2025 10 4).start ≤ t →
        t ≤ dateUTCms 2025 (10 - 1) 4 12 →
        (fun _ => (-18000000 : Int)) t
          = (fun _ => (-18000000 : Int)) (dateUTCms 2025 (10 - 1) 4 12)) ∧
      (dayRangeUTC (fun _ => -18000000) 2025 10 4).stop -
          (dayRangeUTC (fun _ => -18000000) 2025 10 4).start = 86400000 :=
  ⟨fun _ _ _ => rfl,
    dayRangeUTC_no_dst_span_24h (fun _ => -18000000) 2025 10 4
      (fun _ _ _ => rfl)⟩

/-- C10: the stats-today.ts variant of `dayRangeUTC` ignores its
`timeZone` argument entirely — any two zone-name arguments (valid or
not) give identical results — and, whenever the environment knows the
hardcoded zone "America/Indiana/Indianapolis", the call returns a
window (no throw) no matter what zone name was passed. -/
theorem dayRangeUTCStats_ignores_timezone_arg :
    (∀ (tzdb : String → Option (Int → Int)) (y m d : Int) (tz1 tz2 : String),
        dayRangeUTCStats tzdb y m d tz1 = dayRangeUTCStats tzdb y m d tz2) ∧
      (∀ (tzdb : String → Option (Int → Int)) (y m d : Int) (tz : String),
        (tzdb "America/Indiana/Indianapolis").isSome = true →
        (dayRangeUTCStats tzdb y m d tz).isSome = true) := by
  constructor
  · intro tzdb y m d tz1 tz2
    rfl
  · intro tzdb y m d tz h
    simp only [dayRangeUTCStats]
    split
    · next hnone => rw [hnone] at h; simp at h
    · rfl

/-- C10 (witness): with a database holding only the hardcoded zone, an
invalid zone-name argument still yields a window. -/
theorem dayRangeUTCStats_ignores_timezone_arg_witness :
    (tzdbIndy "America/Indiana/Indianapolis").isSome = true ∧
      (dayRangeUTCStats tzdbIndy 2025 10 4 "Not/A/Zone").isSome = true :=
  ⟨by decide,
    dayRangeUTCStats_ignores_timezone_arg.2 tzdbIndy 2025 10 4 "Not/A/Zone"
      (by decide)⟩

/-- C4 (counterexample): an invalid native Date (`new Date(NaN)`) is an
input value and a native Date, yet `toDateStrict` returns it unchanged —
neither a valid Instant nor null — because the `instanceof Date` branch
has no validity check. -/
theorem toDateStrict_invalid_date_passthrough :
    ¬ isValidOrNull (toDateStrict (JSValue.date none)) := by
  intro h
  rcases h with h | ⟨m, h⟩ <;> simp [toDateStrict] at h

/-- C4 (amended): `toDateStrict` is total and never raises, and for
every input other than a native Date or a `toDate`-bearing object
(whose Date object is passed through unchecked, possibly invalid) the
result is a valid Instant or null. -/
theorem toDateStrict_total_valid_or_null (v : JSValue)
    (h : isPassthrough v = false) : isValidOrNull (toDateStrict v) := by
  cases v with
  | jsNull => exact Or.inl rfl
  | tsMethod d => simp [isPassthrough] at h
  | pojo s n =>
      simp only [toDateStrict, isValidOrNull]
      split
      · exact Or.inl rfl
      · exact Or.inr ⟨_, rfl⟩
  | date d => simp [isPassthrough] at h
  | str p =>
      simp only [toDateStrict, isValidOrNull]
      cases p
      · exact Or.inl rfl
      · exact Or.inr ⟨_, rfl⟩
  | num n =>
      simp only [toDateStrict, isValidOrNull]
      split
      · exact Or.inl rfl
      · exact Or.inr ⟨_, rfl⟩
  | numNaN => exact Or.inl rfl
  | other => exact Or.inl rfl

/-- C4 (witness): a `{seconds, nanoseconds}` object is not a
pass-through shape and normalizes to a valid Instant or null. -/
theorem toDateStrict_total_valid_or_null_witness :
    isPassthrough (JSValue.pojo 1700000000 500000000) = false ∧
      isValidOrNull (toDateStrict (JSValue.pojo 1700000000 500000000)) :=
  ⟨rfl, toDateStrict_total_valid_or_null
    (JSValue.pojo 1700000000 500000000) rfl⟩

/-- C8 (counterexample): for `{seconds: 10^13, nanoseconds: 0}` the
claimed result would be the Instant at 10^16 ms, but that exceeds the
valid Date range, the `isNaN` guard fires, and `toDateStrict` returns
null instead. -/
theorem toDateStrict_pojo_out_of_range :
    toDateStrict (JSValue.pojo 10000000000000 0) = none ∧
      toDateStrict (JSValue.pojo 10000000000000 0) ≠
        some (some (10000000000000 * 1000 + Int.fdiv 0 1000000)) := by
  exact ⟨by decide, by decide⟩

/-- C8 (amended): for every object with numeric `seconds` and
`nanoseconds` whose value `seconds*1000 + floor(nanoseconds/10^6)` lies
in the valid Date range, `toDateStrict` returns the Instant at that
millisecond count (out-of-range values yield null); in particular
`{seconds: 1700000000, nanoseconds: 500000000}` maps to the Instant at
1700000000500 ms since epoch. -/
theorem toDateStrict_pojo_formula :
    (∀ s n : Int,
        (s * 1000 + Int.fdiv n 1000000).natAbs ≤ 8640000000000000 →
        toDateStrict (JSValue.pojo s n)
          = some (some (s * 1000 + Int.fdiv n 1000000))) ∧
      toDateStrict (JSValue.pojo 1700000000 500000000)
        = some (some 1700000000500) := by
  constructor
  · intro s n h
    simp only [toDateStrict, validDate, if_pos h]
  · decide

/-- C8 (witness): the general formula applied at the spec's concrete
pair. -/
theorem toDateStrict_pojo_formula_witness :
    ((1700000000 * 1000 + Int.fdiv 500000000 1000000).natAbs
        ≤ 8640000000000000) ∧
      toDateStrict (JSValue.pojo 1700000000 500000000)
        = some (some (1700000000 * 1000 + Int.fdiv 500000000 1000000)) :=
  ⟨by decide,
    toDateStrict_pojo_formula.1 1700000000 500000000 (by decide)⟩

/-- C2: the freshness tracker. (1) First observation of a non-empty
batch whose leading document carries the batch's newest instant `t`
(batches arrive newest-first) emits nothing and records `t`. (2) Every
subsequent observation emits exactly the documents of the batch whose
timestamp strictly exceeds the tracked state — as a list sorted
ascending by timestamp. (3) The spec's concrete run: first
`observe([d1(t=5), d2(t=3)])` emits nothing and sets the state to 5;
then `observe([d3(t=7), d1(t=5), d2(t=3)])` emits `[d3]` and sets the
state to 7. -/
theorem freshness_observe_spec :
    (∀ (d0 : WDoc) (rest : List WDoc) (t : Int),
        toDateStrict d0.submittedAt = some (some t) →
        (∀ d ∈ d0 :: rest, ∀ m : Int,
            toDateStrict d.submittedAt = some (some m) → m ≤ t) →
        observeStep none (d0 :: rest) = (some (some t), [])) ∧
      (∀ (ls : Option Int) (batch : List WDoc),
        List.Perm (observeStep (some ls) batch).2
            (batch.filter (freshP ls)) ∧
          List.Pairwise keyLE (observeStep (some ls) batch).2) ∧
      (observeStep none [wd1, wd2] = (some (some 5), []) ∧
        observeStep (some (some 5)) [wd3, wd1, wd2]
          = (some (some 7), [wd3])) := by
  refine ⟨?_, observe_emit, by decide, by decide⟩
  intro d0 rest t hhead hmax
  simp only [observeStep, hhead]

/-- C2 (witness): the first-observation clause applied at the spec's
first batch. -/
theorem freshness_observe_spec_witness :
    toDateStrict wd1.submittedAt = some (some 5) ∧
      (∀ d ∈ [wd1, wd2], ∀ m : Int,
          toDateStrict d.submittedAt = some (some m) → m ≤ 5) ∧
      observeStep none [wd1, wd2] = (some (some 5), []) := by
  have hmax : ∀ d ∈ [wd1, wd2], ∀ m : Int,
      toDateStrict d.submittedAt = some (some m) → m ≤ 5 := by
    intro d hd m hm
    rcases List.mem_cons.mp hd with h | h
    · subst h
      simp [wd1, toDateStrict] at hm
      omega
    · rcases List.mem_cons.mp h with h2 | h2
      · subst h2
        simp [wd2, toDateStrict] at hm
        omega
      · simp at h2
  exact ⟨by decide, hmax,
    freshness_observe_spec.1 wd1 [wd2] 5 (by decide) hmax⟩

/-- C6: the tracked last-seen state is monotone — one observation can
only keep or advance the tracked instant, and over any sequence of
observed batches (in any chronological order) the tracked instant never
decreases. -/
theorem freshness_state_monotone :
    (∀ (s : Option (Option Int)) (batch : List WDoc) (t : Int),
        trackedInstant s = some t →
        ∃ u, trackedInstant (observeStep s batch).1 = some u ∧ t ≤ u) ∧
      (∀ (batches : List (List WDoc)) (s : Option (Option Int)) (t : Int),
        trackedInstant s = some t →
        ∃ u, trackedInstant (runBatches s batches) = some u ∧ t ≤ u) :=
  ⟨observe_mono, run_mono⟩

/-- C6 (witness): a state tracking 5, fed one more batch, still tracks
an instant at least 5. -/
theorem freshness_state_monotone_witness :
    trackedInstant (some (some 5)) = some 5 ∧
      ∃ u, trackedInstant (runBatches (some (some 5)) [[wd3]]) = some u ∧
        (5 : Int) ≤ u :=
  ⟨rfl, freshness_state_monotone.2 [[wd3]] (some (some 5)) 5 rfl⟩

/-- C3: in the candidate cascade, when every earlier candidate's query
throws or returns no documents and candidate `f`'s query succeeds with a
non-empty document list `ds`, the loop accepts `f` with exactly `ds`,
and the attempted candidates are precisely the earlier ones plus `f` —
no later candidate is ever queried; a throwing candidate is skipped
without aborting. -/
theorem probeLoop_first_success (oracle : String → QueryOutcome)
    (pre post : List String) (f : String) (ds : List GDoc)
    (hpre : ∀ g ∈ pre, oracle g = .err ∨ oracle g = .ok [])
    (hf : oracle f = .ok ds) (hne : ds ≠ []) :
    probeLoop oracle (pre ++ f :: post) = ⟨some f, ds, pre ++ [f]⟩ := by
  induction pre with
  | nil =>
    simp only [List.nil_append, probeLoop, hf]
    rw [if_neg]
    simp [List.isEmpty_iff, hne]
  | cons g pre ih =>
    have hg := hpre g (List.mem_cons_self g pre)
    have hrest : ∀ x ∈ pre, oracle x = .err ∨ oracle x = .ok [] :=
      fun x hx => hpre x (List.mem_cons_of_mem g hx)
    have ih2 := ih hrest
    rcases hg with hg | hg
    · simp only [List.cons_append, probeLoop, hg, List.append_eq, ih2]
    · simp only [List.cons_append, probeLoop, hg, List.isEmpty_nil, if_pos,
        List.append_eq, ih2]

/-- C3 (witness): the spec's [A,B,C] scenario over the real candidate
list — `submittedAt` throws, `updatedAt` returns two documents — so the
probe accepts `updatedAt` with those two documents after attempting only
`submittedAt` and `updatedAt`. -/
theorem probeLoop_first_success_witness :
    (∀ g ∈ ["submittedAt"], probeOracleExample g = .err ∨
        probeOracleExample g = .ok []) ∧
      probeOracleExample "updatedAt" = .ok [gdocB1, gdocB2] ∧
      ([gdocB1, gdocB2] : List GDoc) ≠ [] ∧
      probeLoop probeOracleExample TIME_FIELDS
        = ⟨some "updatedAt", [gdocB1, gdocB2], ["submittedAt", "updatedAt"]⟩ :=
  ⟨by decide, by decide, by decide,
    probeLoop_first_success probeOracleExample ["submittedAt"]
      ["lastUpdatedAt", "createdAt", "gameDate"] "updatedAt"
      [gdocB1, gdocB2] (by decide) (by decide) (by decide)⟩

/-- C7: when every server-side candidate query throws or returns no
documents, and the fallback full fetch yields a set in which no document
has any candidate field normalizing into the window, the run reports the
complete unfiltered set with `usedField` still null (the "no usable date
field found" diagnostic) and continues normally. -/
theorem gameStats_fallback_shows_all (oracle : String → QueryOutcome)
    (all : List GDoc) (w : Window)
    (hq : ∀ g ∈ TIME_FIELDS, oracle g = .err ∨ oracle g = .ok [])
    (hd : ∀ d ∈ all, ∀ f ∈ TIME_FIELDS, docInRange w d f = false) :
    gameStatsRun oracle (.ok all) w = ⟨all, none, TIME_FIELDS, none⟩ := by
  have hloop := probe_all_fail oracle TIME_FIELDS hq
  have hfmf : ∀ d ∈ all, firstMatchingField w d = none := by
    intro d hdmem
    apply List.find?_eq_none.mpr
    intro f hf
    simp [hd d hdmem f hf]
  have hfilter : all.filter (fun d => (firstMatchingField w d).isSome) = [] := by
    apply List.filter_eq_nil_iff.mpr
    intro d hdmem
    simp [hfmf d hdmem]
  have hfold := fold_used_none w all hfmf none
  simp only [gameStatsRun, hloop, List.isEmpty_nil, if_pos, fallbackScan,
    hfilter, hfold]

/-- C7 (witness): all candidate queries throw and the full fetch returns
one document with no candidate field; the run shows that document with
the no-usable-field diagnostic. -/
theorem gameStats_fallback_shows_all_witness :
    (∀ g ∈ TIME_FIELDS, oracleErr g = .err ∨ oracleErr g = .ok []) ∧
      (∀ d ∈ [gdocPlain], ∀ f ∈ TIME_FIELDS,
          docInRange ⟨0, 10⟩ d f = false) ∧
      gameStatsRun oracleErr (.ok [gdocPlain]) ⟨0, 10⟩
        = ⟨[gdocPlain], none, TIME_FIELDS, none⟩ :=
  ⟨by decide, by decide,
    gameStats_fallback_shows_all oracleErr [gdocPlain] ⟨0, 10⟩
      (by decide) (by decide)⟩

/-- C5 (counterexample): the gameStats reporting script does not always
degrade gracefully — when every candidate query throws and the fallback
full fetch also throws, it terminates with exit status 1, so non-zero
termination is not confined to the guesses-by-submittedAt path. -/
theorem gameStats_fallback_failure_exits :
    (gameStatsRun oracleErr .err ⟨0, 86400000⟩).exitCode = some 1 ∧
      (gameStatsRun oracleErr .err ⟨0, 86400000⟩).exitCode ≠ none := by
  exact ⟨by decide, by decide⟩

/-- C5 (amended): explicit non-zero termination happens on exactly two
unrecoverable-fetch paths — stats-today.ts exits 1 iff its `submittedAt`
range query throws, and gameStats-today.ts exits 1 iff the candidate
loop produced no documents and the fallback full fetch throws; those are
the only exit statuses either script produces. -/
theorem exit_code_characterization :
    (∀ q : QueryOutcome, statsTodayExitCode q = some 1 ↔ q = .err) ∧
      (∀ (oracle : String → QueryOutcome) (fa : QueryOutcome) (w : Window),
        (gameStatsRun oracle fa w).exitCode = some 1 ↔
          ((probeLoop oracle TIME_FIELDS).docs = [] ∧ fa = .err)) ∧
      (∀ (oracle : String → QueryOutcome) (fa : QueryOutcome) (w : Window),
        (gameStatsRun oracle fa w).exitCode = none ∨
          (gameStatsRun oracle fa w).exitCode = some 1) :=
  ⟨statsToday_exit_iff, gameStats_exit_iff, gameStats_exit_range⟩

/-- C5 (witness): the characterization applied at concrete outcomes — a
failed stats-today query exits 1, and a gameStats run whose candidate
loop found nothing and whose fallback fetch throws exits 1. -/
theorem exit_code_characterization_witness :
    statsTodayExitCode .err = some 1 ∧
      ((probeLoop oracleErr TIME_FIELDS).docs = [] ∧
        (QueryOutcome.err = QueryOutcome.err)) ∧
      (gameStatsRun oracleErr .err ⟨0, 86400000⟩).exitCode = some 1 :=
  ⟨(exit_code_characterization.1 .err).mpr rfl,
    ⟨by decide, rfl⟩,
    (exit_code_characterization.2.1 oracleErr .err ⟨0, 86400000⟩).mpr
      ⟨by decide, rfl⟩⟩
